import Mathlib

/-!
Shallow embedding of the AntSimulation core (`src/sim` of the repository):
`Coordinates`, `Pheromone`, `Resource`, `Ant`, `Colony` spawn allocation and
the `World` pheromone bookkeeping, together with theorems settling the
specification claims about them.

Machine integers (`u16`, `i32`, `u8`) are modelled as `Nat`/`Int` with explicit
wrap-around (`% 65536`) or checked arithmetic exactly where the Rust code uses
wrapping or `checked_*` operations.  Randomness (direction shuffles and the
floating-point movement-chance coin flips) is passed in as explicit parameters,
so every definition is a total function of state plus those choices.
-/

namespace AntSim

/-! ## Configuration constants (`src/src/ant_settings.rs`) -/

def WORLD_WIDTH : Nat := 64

def WORLD_HEIGHT : Nat := 64

def MAXIMUM_PHEROMONE_STRENGTH : Nat := 1000

def DEFAULT_EXPLORATION_PHEROMONE_DEPRECIATION_RATE : Nat := 5

def DEFAULT_FOOD_PHEROMONE_DEPRECIATION_RATE : Nat := 10

def DEFAULT_COLONY_SCOUT_SIZE : Nat := 25

def DEFAULT_COLONY_WORKER_SIZE : Nat := 10

def DEFAULT_COLONY_SPAWN_RATE : Nat := 2

def DEFAULT_RESOURCE_SIZE : Nat := 20

def DEFAULT_MAX_ANT_STEPS : Nat := 1000

/-! ## Machine-integer helpers -/

/-- Truncating cast to `u16` (Rust `as u16`). -/
def u16cast (n : Nat) : Nat := n % 65536

/-- Wrapping `u16` multiplication (release-mode Rust `*` on `u16`). -/
def u16Mul (a b : Nat) : Nat := (a * b) % 65536

/-- Wrapping `u16` addition (release-mode Rust `+` on `u16`). -/
def u16Add (a b : Nat) : Nat := (a + b) % 65536

/-- Wrapping `u16` subtraction (release-mode Rust `-` on `u16`), for `a, b < 65536`. -/
def u16Sub (a b : Nat) : Nat := (a + 65536 - b) % 65536

/-- Rust `u16::checked_add`: `none` when the mathematical sum exceeds `u16::MAX`. -/
def u16CheckedAdd (a b : Nat) : Option Nat :=
  if a + b ≤ 65535 then some (a + b) else none

/-- Rust `i32::checked_add`: `none` when the mathematical sum leaves the `i32` range. -/
def i32CheckedAdd (a b : Int) : Option Int :=
  if -2147483648 ≤ a + b ∧ a + b ≤ 2147483647 then some (a + b) else none

/-! ## Coordinates (`src/src/sim/mod.rs`) -/

/-- Rust struct `Coordinates { x_position: u16, y_position: u16 }`. -/
structure Coordinates where
  x_position : Nat
  y_position : Nat
deriving DecidableEq

/-- Rust `Coordinates::default()`: position `(0, 0)`. -/
def Coordinates.default : Coordinates := ⟨0, 0⟩

/-- Rust `Coordinates::new` (mod.rs lines 63-71): fails iff
`x_position > WORLD_WIDTH || y_position > WORLD_HEIGHT`. -/
def Coordinates.new (x_position y_position : Nat) : Option Coordinates :=
  if WORLD_WIDTH < x_position ∨ WORLD_HEIGHT < y_position then none
  else some ⟨x_position, y_position⟩

/-- Rust `Coordinates::safe_modify` (mod.rs lines 127-151): clamped move.
Each component is `checked_add`ed as `i32` (falling back to the world bound on
overflow), then clamped to `[0, WORLD_WIDTH]` resp. `[0, WORLD_HEIGHT]` -- the
upper clamp uses `>`, so the bound itself is reachable. -/
def Coordinates.safe_modify (c : Coordinates) (x_amount y_amount : Int) : Coordinates :=
  let nx := (i32CheckedAdd (c.x_position : Int) x_amount).getD (WORLD_WIDTH : Int)
  let x : Nat :=
    if (WORLD_WIDTH : Int) < nx then WORLD_WIDTH
    else if nx < 0 then 0
    else nx.toNat
  let ny := (i32CheckedAdd (c.y_position : Int) y_amount).getD (WORLD_HEIGHT : Int)
  let y : Nat :=
    if (WORLD_HEIGHT : Int) < ny then WORLD_HEIGHT
    else if ny < 0 then 0
    else ny.toNat
  ⟨x, y⟩

/-- Rust `Coordinates::modify` (mod.rs lines 187-207): checked move, failing
when a component would reach `WORLD_WIDTH`/`WORLD_HEIGHT` (strict `>=` test)
or go below zero. -/
def Coordinates.modify (c : Coordinates) (x_amount y_amount : Int) : Option Coordinates :=
  match i32CheckedAdd (c.x_position : Int) x_amount with
  | none => none
  | some nx =>
    if (WORLD_WIDTH : Int) ≤ nx ∨ nx < 0 then none
    else
      match i32CheckedAdd (c.y_position : Int) y_amount with
      | none => none
      | some ny =>
        if (WORLD_HEIGHT : Int) ≤ ny ∨ ny < 0 then none
        else some ⟨nx.toNat, ny.toNat⟩

/-- Rust `Coordinates::manhattan_distance` (mod.rs lines 233-237).  Translated
exactly as written in the source: BOTH `x_distance` and `y_distance` are
computed from the x coordinates (`self.x_position - other.x_position`); the
y coordinates are never read. -/
def Coordinates.manhattan_distance (c other : Coordinates) : Nat :=
  let x_distance := u16cast ((c.x_position : Int) - (other.x_position : Int)).natAbs
  let y_distance := u16cast ((c.x_position : Int) - (other.x_position : Int)).natAbs
  u16cast (x_distance + y_distance)

/-! ## Pheromone (`src/src/sim/pheromone.rs`) -/

/-- Rust enum `PheromoneType`. -/
inductive PheromoneType where
  | Exploration
  | Resource
deriving DecidableEq

/-- Rust struct `Pheromone { strength: u16, depreciation_rate: u16, pheromone_type }`. -/
structure Pheromone where
  strength : Nat
  depreciation_rate : Nat
  pheromone_type : PheromoneType
deriving DecidableEq

/-- Rust `Pheromone::new` (pheromone.rs lines 84-97): fails when the strength
exceeds `MAXIMUM_PHEROMONE_STRENGTH` or is below the depreciation rate. -/
def Pheromone.new (strength depreciation_rate : Nat) (pheromone_type : PheromoneType) :
    Option Pheromone :=
  if MAXIMUM_PHEROMONE_STRENGTH < strength ∨ strength < depreciation_rate then none
  else some ⟨strength, depreciation_rate, pheromone_type⟩

/-- Rust `Pheromone::default` (pheromone.rs lines 98-108): full strength, with
the per-kind depreciation rate. -/
def Pheromone.default (pheromone_type : PheromoneType) : Pheromone :=
  let depreciation_rate :=
    match pheromone_type with
    | PheromoneType.Exploration => DEFAULT_EXPLORATION_PHEROMONE_DEPRECIATION_RATE
    | PheromoneType.Resource => DEFAULT_FOOD_PHEROMONE_DEPRECIATION_RATE
  ⟨MAXIMUM_PHEROMONE_STRENGTH, depreciation_rate, pheromone_type⟩

/-- Rust `Pheromone::refresh` (pheromone.rs lines 129-137): if the `u16`
checked add succeeds and stays strictly below `MAXIMUM_PHEROMONE_STRENGTH`,
keep the sum; in every other case (including overflow) the strength becomes
`MAXIMUM_PHEROMONE_STRENGTH - 1`. -/
def Pheromone.refresh (p : Pheromone) (strength : Nat) : Pheromone :=
  match u16CheckedAdd p.strength strength with
  | some s =>
    if s < MAXIMUM_PHEROMONE_STRENGTH then { p with strength := s }
    else { p with strength := MAXIMUM_PHEROMONE_STRENGTH - 1 }
  | none => { p with strength := MAXIMUM_PHEROMONE_STRENGTH - 1 }

/-- Rust `Pheromone::update` (pheromone.rs lines 154-162): `checked_sub` of
the depreciation rate.  On success the new strength is kept and the call
returns `true` (even when the new strength is exactly 0); on underflow the
strength clamps to 0 and the call returns `false`. -/
def Pheromone.update (p : Pheromone) : Pheromone × Bool :=
  if p.depreciation_rate ≤ p.strength then
    ({ p with strength := p.strength - p.depreciation_rate }, true)
  else
    ({ p with strength := 0 }, false)

/-! ## Resource (`src/src/sim/resource.rs`) -/

/-- Rust struct `Resource { resources_remaining: u8 }`. -/
structure Resource where
  resources_remaining : Nat
deriving DecidableEq

/-- Rust `Resource::consume` (resource.rs lines 32-39): `checked_sub(1)`.
Returns the mutated resource together with the Rust return value:
`some new_count` on success, `none` when the count was already 0. -/
def Resource.consume (r : Resource) : Resource × Option Nat :=
  if 1 ≤ r.resources_remaining then
    (⟨r.resources_remaining - 1⟩, some (r.resources_remaining - 1))
  else
    (r, none)

/-! ## Ant types and Colony spawn allocation (`src/src/sim/ant.rs`, `colony.rs`) -/

/-- Rust enum `AntType`. -/
inductive AntType where
  | Scout
  | Worker
deriving DecidableEq

/-- Rust `AntType::get_maximum_number_of_ants` (ant.rs lines 260-265). -/
def AntType.get_maximum_number_of_ants : AntType → Nat
  | AntType.Scout => DEFAULT_COLONY_SCOUT_SIZE
  | AntType.Worker => DEFAULT_COLONY_WORKER_SIZE

/-- The two keys of the colony's per-kind ant map.  The Rust `HashMap`
iteration order is unspecified, but every quantity computed by `spawn_ants`
(per-kind requirement, total requirement, per-kind spawn count) is independent
of that order, so a fixed order is a faithful model. -/
def antTypes : List AntType := [AntType.Scout, AntType.Worker]

/-- Per-kind requirement from `Colony::spawn_ants` (colony.rs line 71):
`max_ants - ants.len()` as wrapping `u16` subtraction. -/
def required_for (counts : AntType → Nat) (t : AntType) : Nat :=
  u16Sub t.get_maximum_number_of_ants (counts t)

/-- Total requirement from `Colony::spawn_ants` (colony.rs lines 69-82): the
`u16` sum of the positive per-kind requirements. -/
def total_required_ants (counts : AntType → Nat) : Nat :=
  ((antTypes.filter (fun t => decide (0 < required_for counts t))).map
    (required_for counts)).foldl u16Add 0

/-- Per-kind spawn count from `Colony::spawn_ants` (colony.rs lines 88-90):
`amount * (spawn_rate * 100) / total_required_ants / 100` in `u16` arithmetic,
computed only for kinds with a positive requirement. -/
def to_spawn (spawn_rate : Nat) (counts : AntType → Nat) (t : AntType) : Nat :=
  if 0 < required_for counts t then
    u16Mul (required_for counts t) (u16Mul spawn_rate 100) / total_required_ants counts / 100
  else 0

/-- Net effect of `Colony::spawn_ants` (colony.rs lines 64-105) on the
per-kind population counts: each kind with a positive requirement gains
`to_spawn` new ants. -/
def spawn_ants (spawn_rate : Nat) (counts : AntType → Nat) (t : AntType) : Nat :=
  counts t + to_spawn spawn_rate counts t

/-! ## Ant (`src/src/sim/ant.rs`)

The pheromone grid `pheromones_map` is a dense
`[[[Option<Pheromone>; 2]; WORLD_HEIGHT]; WORLD_WIDTH]` array in Rust; we model
it as a total function on coordinates, with `tileRead` performing the bounds
check that Rust's array indexing enforces (an index `>= WORLD_WIDTH` or
`>= WORLD_HEIGHT` panics, which we model as `none`). -/

/-- The dense pheromone grid, as a total map. -/
def PheromoneGrid : Type := Coordinates → PheromoneType → Option Pheromone

/-- Rust's `pheromones_map[x][y]` tile indexing: panics (modelled as `none`)
unless `x < WORLD_WIDTH` and `y < WORLD_HEIGHT`. -/
def tileRead (g : PheromoneGrid) (c : Coordinates) : Option (PheromoneType → Option Pheromone) :=
  if c.x_position < WORLD_WIDTH ∧ c.y_position < WORLD_HEIGHT then some (g c) else none

/-- Rust constant `MOVE_POSSIBILITIES` (ant.rs line 27). -/
def MOVE_POSSIBILITIES : List (Int × Int) := [(-1, 0), (1, 0), (0, -1), (0, 1)]

/-- Rust struct `Ant` (ant.rs lines 17-25). -/
structure Ant where
  ant_type : AntType
  position : Coordinates
  colony_position : Coordinates
  steps_on_current_journey : Nat
  is_returning_to_colony : Bool
  found_food : Bool
  distance_from_colony : Nat
deriving DecidableEq

/-- Rust `Ant::new` (ant.rs lines 42-52). -/
def Ant.new (ant_type : AntType) (position colony_position : Coordinates) : Ant :=
  ⟨ant_type, position, colony_position, 0, false, false, 0⟩

/-- Rust `Ant::is_correct_direction` (ant.rs lines 158-165): a returning ant
wants a strictly smaller distance to the colony, an exploring ant a strictly
larger one (distances via the source's `manhattan_distance`). -/
def Ant.is_correct_direction (a : Ant) (new_position : Coordinates) : Bool :=
  let new_distance := new_position.manhattan_distance a.colony_position
  if a.is_returning_to_colony then decide (new_distance < a.distance_from_colony)
  else decide (a.distance_from_colony < new_distance)

/-- The loop of `Ant::move_random` (ant.rs lines 174-183).  `moves` is the
shuffled direction order (a permutation of `MOVE_POSSIBILITIES`), passed in as
an explicit random choice.  `acc` is the `new_position` variable: it keeps the
last in-bounds candidate even when the direction check rejects it, and a
failed `modify` sets `allow_backwards` for the remaining iterations. -/
def move_random_go (a : Ant) : Bool → Option Coordinates → List (Int × Int) →
    Option Coordinates
  | _, acc, [] => acc
  | allow_backwards, acc, m :: rest =>
    match a.position.modify m.1 m.2 with
    | some test_position =>
      if allow_backwards || a.is_correct_direction test_position then some test_position
      else move_random_go a allow_backwards (some test_position) rest
    | none => move_random_go a true acc rest

/-- Rust `Ant::move_random` (ant.rs lines 169-194).  `allow_backwards` models
the `rand::random::<f64>() > ANT_BACKWARDS_CHANCE` coin flip, `moves` the
shuffled direction order.  Returns `none` for the `panic!` on an exhausted
move selection, otherwise the moved ant with its cached colony distance
recomputed. -/
def Ant.move_random (a : Ant) (allow_backwards : Bool) (moves : List (Int × Int)) :
    Option Ant :=
  match move_random_go a allow_backwards none moves with
  | none => none
  | some new_position =>
    some { a with
            position := new_position,
            distance_from_colony := new_position.manhattan_distance a.colony_position }

/-- Randomness consumed by one `move_random` call. -/
structure MoveRand where
  allow_backwards : Bool
  random_moves : List (Int × Int)

/-- The loop of `Ant::move_pheromones` (ant.rs lines 208-234), tracking the
strongest pheromone seen so far and its position.  For each shuffled move, the
clamped look-ahead `safe_modify` produces the neighbour; neighbours failing
`is_correct_direction` are skipped, the rest are read from the grid via
`tileRead` (`none` = Rust's out-of-bounds panic).  Scouts consult the
Exploration layer and then both kinds consult the Resource layer, each
replacing the running maximum only on a strictly greater strength. -/
def strongestSearch (a : Ant) (g : PheromoneGrid) :
    List (Int × Int) → Nat → Coordinates → Option (Nat × Coordinates)
  | [], strongest, pos => some (strongest, pos)
  | m :: rest, strongest, pos =>
    let new_position := a.position.safe_modify m.1 m.2
    if a.is_correct_direction new_position = false then
      strongestSearch a g rest strongest pos
    else
      match tileRead g new_position with
      | none => none
      | some pheromones =>
        let s1p1 : Nat × Coordinates :=
          if a.ant_type = AntType.Scout then
            match pheromones PheromoneType.Exploration with
            | some ph =>
              if strongest < ph.strength then (ph.strength, new_position)
              else (strongest, pos)
            | none => (strongest, pos)
          else (strongest, pos)
        let s2p2 : Nat × Coordinates :=
          match pheromones PheromoneType.Resource with
          | some ph =>
            if s1p1.1 < ph.strength then (ph.strength, new_position)
            else s1p1
          | none => s1p1
        strongestSearch a g rest s2p2.1 s2p2.2

/-- Rust `Ant::move_pheromones` (ant.rs lines 199-250).  `moves` is the
shuffled direction order; `fb` is the randomness for the fall-back
`move_random` used when no pheromone of positive strength was found.
`none` models a panic (either an out-of-bounds grid read in the search loop,
or the fall-back's own panic). -/
def Ant.move_pheromones (a : Ant) (g : PheromoneGrid) (moves : List (Int × Int))
    (fb : MoveRand) : Option Ant :=
  match strongestSearch a g moves 0 Coordinates.default with
  | none => none
  | some (strongest, position) =>
    if strongest = 0 then a.move_random fb.allow_backwards fb.random_moves
    else
      some { a with
              position := position,
              distance_from_colony := position.manhattan_distance a.colony_position }

/-- Randomness consumed by one `move_ant` call: the outcome of the
floating-point comparison `random_chance < ant_pheromone_chance` (modelled as
the boolean it produces, since both branches are taken for suitable draws),
the shuffled order for the pheromone search, and the randomness of the
(possibly fall-back) random move. -/
structure MoveChoice where
  follow_pheromones : Bool
  pheromone_moves : List (Int × Int)
  fallback : MoveRand

/-- The reset/timeout check opening `Ant::move_ant` (ant.rs lines 123-130):
at the colony anchor the journey state is cleared (steps to 0, returning and
found-food flags to false); otherwise, past `DEFAULT_MAX_ANT_STEPS` (strict
`>`) the step count resets and the ant turns around. -/
def Ant.reset_check (a : Ant) : Ant :=
  if a.position = a.colony_position then
    { a with
        steps_on_current_journey := 0,
        is_returning_to_colony := false,
        found_food := false }
  else if DEFAULT_MAX_ANT_STEPS < a.steps_on_current_journey then
    { a with steps_on_current_journey := 0, is_returning_to_colony := true }
  else a

/-- Rust `Ant::move_ant` (ant.rs lines 118-152).  First the reset/timeout
check runs, then the ant follows pheromones or moves randomly according to
the (float-derived) coin flip. -/
def Ant.move_ant (a : Ant) (g : PheromoneGrid) (r : MoveChoice) : Option Ant :=
  if r.follow_pheromones then
    (a.reset_check).move_pheromones g r.pheromone_moves r.fallback
  else
    (a.reset_check).move_random r.fallback.allow_backwards r.fallback.random_moves

/-- The food-consumption step of `Ant::update` (ant.rs lines 64-75).  In the
source, `if let Some(mut food) = &food_map[x][y]` matches through a shared
reference with a `mut` binding, so `food` is bound to a COPY of the stored
`Resource` (it is `Copy`); `food.consume()` therefore mutates only that copy.
The grid cell is written only in the depletion branch (when the copy's
`consume` returns `None`, i.e. the stored count was already 0), where it is
cleared; in every other case the stored resource is left unchanged. -/
def Ant.consume_food_step (a : Ant) (food_map : Coordinates → Option Resource) :
    Ant × (Coordinates → Option Resource) :=
  match food_map a.position with
  | some food =>
    let a1 := { a with is_returning_to_colony := true, found_food := true }
    let food_map1 :=
      if (food.consume).2.isNone then
        fun c => if c = a.position then none else food_map c
      else food_map
    (a1, food_map1)
  | none => (a, food_map)

/-- The list of grid positions at which the loop of `Ant::move_pheromones`
(ant.rs lines 208-217) indexes `pheromones_map`: the clamped look-ahead
neighbours, restricted to those passing `is_correct_direction`. -/
def Ant.pheromone_read_positions (a : Ant) (moves : List (Int × Int)) : List Coordinates :=
  (moves.map (fun m => a.position.safe_modify m.1 m.2)).filter
    (fun c => a.is_correct_direction c)

/-! ## World pheromone bookkeeping (`src/src/sim/world.rs`, `ant.rs`)

The only code that mutates the pheromone grid or the sparse
`pheromone_lookup` index is `Ant::update_pheromone` (during the colony phase
of `World::update`) and the decay sweep at the end of `World::update`.  A
tick is therefore modelled as an arbitrary finite sequence of
`update_pheromone` writes (one per ant that lays or refreshes this tick, at
that ant's position and chosen kind -- the positions and kinds are left
unconstrained, which over-approximates the set of states the real tick can
produce) followed by one decay sweep. -/

/-- Joint pheromone state of the `World`: the dense grid and the sparse
lookup list. -/
structure PheromoneState where
  pheromones : PheromoneGrid
  pheromone_lookup : List (Coordinates × PheromoneType)

/-- Point update of the dense grid. -/
def gridSet (g : PheromoneGrid) (pos : Coordinates) (k : PheromoneType)
    (v : Option Pheromone) : PheromoneGrid :=
  fun c k2 => if c = pos ∧ k2 = k then v else g c k2

/-- Rust `Ant::update_pheromone` (ant.rs lines 83-107), for a chosen position
and kind: if a pheromone of that kind exists there, refresh it by its own
current strength; otherwise store a default pheromone and push the
coordinates+kind pair onto the lookup list. -/
def update_pheromone (s : PheromoneState) (pos : Coordinates) (k : PheromoneType) :
    PheromoneState :=
  match s.pheromones pos k with
  | some p =>
    { s with pheromones := gridSet s.pheromones pos k (some (p.refresh p.strength)) }
  | none =>
    { pheromones := gridSet s.pheromones pos k (some (Pheromone.default k)),
      pheromone_lookup := s.pheromone_lookup ++ [(pos, k)] }

/-- One entry of the decay sweep of `World::update` (world.rs lines 99-111):
if the grid cell holds a pheromone, tick it in place; when the tick reports
expiry, also clear the cell and report `false` (drop the entry).  A `none`
cell leaves the grid alone and keeps the entry. -/
def sweepStep (g : PheromoneGrid) (e : Coordinates × PheromoneType) :
    PheromoneGrid × Bool :=
  match g e.1 e.2 with
  | some p =>
    if (p.update).2 then (gridSet g e.1 e.2 (some (p.update).1), true)
    else (gridSet (gridSet g e.1 e.2 (some (p.update).1)) e.1 e.2 none, false)
  | none => (g, true)

/-- The `retain` sweep of `World::update` (world.rs lines 98-112): processes
the lookup entries in order, mutating the grid, and returns the final grid
together with the retained entries. -/
def sweepGo (g : PheromoneGrid) :
    List (Coordinates × PheromoneType) →
      PheromoneGrid × List (Coordinates × PheromoneType)
  | [] => (g, [])
  | e :: rest =>
    ((sweepGo (sweepStep g e).1 rest).1,
      if (sweepStep g e).2 then e :: (sweepGo (sweepStep g e).1 rest).2
      else (sweepGo (sweepStep g e).1 rest).2)

/-- The pheromone-decay phase of `World::update`: sweep the lookup list and
replace it by the retained entries. -/
def world_decay_phase (s : PheromoneState) : PheromoneState :=
  { pheromones := (sweepGo s.pheromones s.pheromone_lookup).1,
    pheromone_lookup := (sweepGo s.pheromones s.pheromone_lookup).2 }

/-- One `World::update` tick, as seen by the pheromone state: the colony
phase performs some finite sequence of `update_pheromone` writes (`lays`),
then the decay sweep runs. -/
def world_tick (lays : List (Coordinates × PheromoneType)) (s : PheromoneState) :
    PheromoneState :=
  world_decay_phase (lays.foldl (fun t e => update_pheromone t e.1 e.2) s)

/-- The pheromone state of a freshly constructed `World` (world.rs lines
27-42 and 51-66): empty grid, empty lookup list. -/
def initialPheromoneState : PheromoneState :=
  { pheromones := fun _ _ => none, pheromone_lookup := [] }

/-- States reachable from a freshly constructed `World` by any number of
ticks, each laying pheromones at arbitrary positions/kinds. -/
inductive ReachablePheromoneState : PheromoneState → Prop where
  | init : ReachablePheromoneState initialPheromoneState
  | step (lays : List (Coordinates × PheromoneType)) {s : PheromoneState} :
      ReachablePheromoneState s → ReachablePheromoneState (world_tick lays s)

/-- The grid/index consistency invariant of the spec: a grid cell is `some`
exactly when its coordinates+kind pair is in the lookup list. -/
def gridMatchesLookup (s : PheromoneState) : Prop :=
  ∀ c k, (s.pheromones c k).isSome = true ↔ (c, k) ∈ s.pheromone_lookup

/-- The invariant actually maintained by the code: consistency plus
no-duplicates of the lookup list. -/
def PheromoneInv (s : PheromoneState) : Prop :=
  gridMatchesLookup s ∧ s.pheromone_lookup.Nodup

/-! ## Concrete instances used by witnesses and counterexamples -/

/-- A colony population one scout short of the scout cap, workers full. -/
def nearFullCounts : AntType → Nat
  | AntType.Scout => 24
  | AntType.Worker => 10

/-- A scout exploring at the right-hand world edge `(63, 0)`, anchored at the
default colony position `(32, 32)`, with its cached colony distance as the
source computes it. -/
def edgeAnt : Ant :=
  ⟨AntType.Scout, ⟨63, 0⟩, ⟨32, 32⟩, 0, false, false,
    Coordinates.manhattan_distance ⟨63, 0⟩ ⟨32, 32⟩⟩

/-- A worker standing on a tile that holds a fresh default-size resource. -/
def tileAnt : Ant := ⟨AntType.Worker, ⟨5, 5⟩, ⟨32, 32⟩, 0, false, false, 0⟩

/-- A food grid with one default-size resource at `(5, 5)`. -/
def tileFood : Coordinates → Option Resource :=
  fun c => if c = ⟨5, 5⟩ then some ⟨DEFAULT_RESOURCE_SIZE⟩ else none

/-- An ant standing on a tile whose stored resource count is already 0. -/
def zeroTileAnt : Ant := ⟨AntType.Worker, ⟨3, 3⟩, ⟨32, 32⟩, 0, false, false, 0⟩

/-- A food grid with a zero-count resource at `(3, 3)`. -/
def zeroTileFood : Coordinates → Option Resource :=
  fun c => if c = ⟨3, 3⟩ then some ⟨0⟩ else none

/-- An ant sitting exactly on its colony anchor, with stale journey state. -/
def anchorAnt : Ant := ⟨AntType.Scout, ⟨32, 32⟩, ⟨32, 32⟩, 5, true, true, 7⟩

/-- An empty pheromone grid. -/
def emptyGrid : PheromoneGrid := fun _ _ => none

/-- A movement-randomness choice taking the random-move branch with
backwards moves allowed and the order starting at `(1, 0)`. -/
def anchorChoice : MoveChoice := ⟨false, [], ⟨true, [(1, 0)]⟩⟩

/-- The ant `move_ant` produces from `anchorAnt` under `anchorChoice`. -/
def anchorAntMoved : Ant := ⟨AntType.Scout, ⟨33, 32⟩, ⟨32, 32⟩, 0, false, false, 2⟩

/-! ## Theorems -/

/-- Claim C8 (code bug): `manhattan_distance` does not compute
`|x1-x2| + |y1-y2|`.  At `(0,0)` and `(0,5)` the code returns 0, while the
Manhattan distance (y-term computed from the y coordinates) is 5 -- the
source computes the y-term from the x coordinates twice, exactly the defect
the spec flags. -/
theorem manhattan_distance_y_term_bug :
    Coordinates.manhattan_distance ⟨0, 0⟩ ⟨0, 5⟩ = 0 ∧
    ((0 : Int) - 0).natAbs + ((0 : Int) - 5).natAbs = 5 := by decide

/-- Claim C6 (code bug): on a pheromone with strength 10 and decay rate 5,
the second `update` call returns `(0, true)`, not `(0, false)` as the claim
and the function's own doc comment ("returns true if the pheromone still
exists (strength greater than 0)") state; only the third and later calls
return `(0, false)`. -/
theorem pheromone_update_at_zero_returns_true :
    Pheromone.update ⟨10, 5, PheromoneType.Exploration⟩ =
      (⟨5, 5, PheromoneType.Exploration⟩, true) ∧
    Pheromone.update ⟨5, 5, PheromoneType.Exploration⟩ =
      (⟨0, 5, PheromoneType.Exploration⟩, true) ∧
    Pheromone.update ⟨0, 5, PheromoneType.Exploration⟩ =
      (⟨0, 5, PheromoneType.Exploration⟩, false) := by decide

/-- Claim C7 counterexample: `Resource::consume` on a resource with count 1
returns `some 0` (the new count), not the depletion signal the claim
describes. -/
theorem consume_at_one_returns_new_count :
    (Resource.consume ⟨1⟩).2 = some 0 := by decide

/-- Claim C5 (code bug): when an ant stands on a tile holding a default-size
resource, the consumption step of `Ant::update` sets `found_food` and
`is_returning_to_colony`, but the count stored in the grid stays at
`DEFAULT_RESOURCE_SIZE` (the `if let Some(mut food)` binding consumes a copy),
while the claim says it must drop by one. -/
theorem consume_food_step_grid_unchanged :
    (tileAnt.consume_food_step tileFood).2 ⟨5, 5⟩ = some ⟨DEFAULT_RESOURCE_SIZE⟩ ∧
    (tileAnt.consume_food_step tileFood).1.found_food = true ∧
    (tileAnt.consume_food_step tileFood).1.is_returning_to_colony = true ∧
    DEFAULT_RESOURCE_SIZE - 1 ≠ DEFAULT_RESOURCE_SIZE := by decide

/-- Claim C3 counterexample: `Coordinates::new WORLD_WIDTH WORLD_HEIGHT`
succeeds although the claim requires creation to fail for any component not
strictly below the bound (the source tests `>`, not `>=`). -/
theorem coordinates_new_at_upper_bound :
    (Coordinates.new WORLD_WIDTH WORLD_HEIGHT).isSome = true ∧
    ¬ WORLD_WIDTH < WORLD_WIDTH := by decide

/-- Claim C2 counterexample: with the default spawn rate 2, a colony one
scout short of the scout cap (24 of 25 scouts, workers full) spawns
`floor(1 * 2 / 1) = 2` scouts, raising the scout count to 26 -- above the
configured maximum of 25. -/
theorem spawn_ants_exceeds_cap :
    spawn_ants DEFAULT_COLONY_SPAWN_RATE nearFullCounts AntType.Scout = 26 ∧
    AntType.Scout.get_maximum_number_of_ants = 25 := by decide

/-- Claim C4 (code bug): a scout exploring at the in-bounds tile `(63, 0)`
evaluating its look-ahead in direction `(1, 0)` reads the pheromone grid at
the clamped coordinate `(64, 0)`, whose x index is NOT below `WORLD_WIDTH`:
in the source this indexes `pheromones_map[64]` on a 64-element array and
panics, so `move_pheromones` aborts (for every grid content and fall-back
randomness). -/
theorem move_pheromones_edge_out_of_bounds (g : PheromoneGrid) (fb : MoveRand) :
    edgeAnt.position.x_position < WORLD_WIDTH ∧
    edgeAnt.position.y_position < WORLD_HEIGHT ∧
    edgeAnt.pheromone_read_positions [(1, 0)] = [⟨64, 0⟩] ∧
    ¬ (64 : Nat) < WORLD_WIDTH ∧
    Ant.move_pheromones edgeAnt g [(1, 0)] fb = none :=
  ⟨by decide, by decide, by decide, by decide, rfl⟩

/-- A clamp of the shape used by `safe_modify` stays at or below its bound. -/
theorem clamp_le (bound : Nat) (n : Int) :
    (if (bound : Int) < n then bound else if n < 0 then 0 else n.toNat) ≤ bound := by
  split
  · exact Nat.le_refl bound
  · split
    · exact Nat.zero_le bound
    · rename_i h1 h2
      omega

/-- Claim C3 (amended): `Coordinates::new x y` succeeds exactly when
`x ≤ WORLD_WIDTH` and `y ≤ WORLD_HEIGHT` (the bounds are INCLUSIVE -- the
source rejects only components strictly above the bound), returns those exact
values on success, and `safe_modify` always returns a coordinate with
`x ≤ WORLD_WIDTH` and `y ≤ WORLD_HEIGHT`. -/
theorem coordinates_bounds_spec (x y : Nat) :
    ((Coordinates.new x y).isSome = true ↔ x ≤ WORLD_WIDTH ∧ y ≤ WORLD_HEIGHT) ∧
    (∀ c, Coordinates.new x y = some c → c.x_position = x ∧ c.y_position = y) ∧
    (∀ (c : Coordinates) (dx dy : Int),
      (c.safe_modify dx dy).x_position ≤ WORLD_WIDTH ∧
      (c.safe_modify dx dy).y_position ≤ WORLD_HEIGHT) := by
  refine ⟨?_, ?_, fun c dx dy => ⟨clamp_le _ _, clamp_le _ _⟩⟩
  · unfold Coordinates.new
    split
    · rename_i h
      simp only [Option.isSome_none, Bool.false_eq_true, false_iff]
      omega
    · rename_i h
      simp only [Option.isSome_some, true_iff]
      omega
  · intro c h
    unfold Coordinates.new at h
    split at h
    · cases h
    · cases h
      exact ⟨rfl, rfl⟩

/-- Claim C3 witness: `Coordinates.new` succeeds on `(5, 7)` with those exact
values, and a clamped move from the corner `(64, 64)` stays within the
inclusive bound. -/
theorem coordinates_bounds_spec_witness :
    (Coordinates.new 5 7).isSome = true ∧
    ((⟨5, 7⟩ : Coordinates).x_position = 5 ∧ (⟨5, 7⟩ : Coordinates).y_position = 7) ∧
    ((⟨64, 64⟩ : Coordinates).safe_modify 1 1).x_position ≤ WORLD_WIDTH :=
  ⟨(coordinates_bounds_spec 5 7).1.mpr (by decide),
   (coordinates_bounds_spec 5 7).2.1 ⟨5, 7⟩ (by decide),
   ((coordinates_bounds_spec 5 7).2.2 ⟨64, 64⟩ 1 1).1⟩

/-- Claim C9: for a pheromone whose strength is at most
`MAXIMUM_PHEROMONE_STRENGTH`, `refresh` with ANY amount (including amounts
whose `u16` addition overflows) leaves the strength at most
`MAXIMUM_PHEROMONE_STRENGTH`: the add saturates (at `MAX - 1`) and never
wraps. -/
theorem refresh_le_max (p : Pheromone) (amount : Nat)
    (_hp : p.strength ≤ MAXIMUM_PHEROMONE_STRENGTH) :
    (p.refresh amount).strength ≤ MAXIMUM_PHEROMONE_STRENGTH := by
  unfold Pheromone.refresh u16CheckedAdd
  split
  · split
    · dsimp only
      omega
    · dsimp only
      omega
  · dsimp only
    omega

/-- Claim C9 witness: a full-strength pheromone refreshed by `u16::MAX`
(whose addition overflows the counter) stays within the maximum. -/
theorem refresh_le_max_witness :
    (⟨1000, 5, PheromoneType.Resource⟩ : Pheromone).strength ≤ MAXIMUM_PHEROMONE_STRENGTH ∧
    (Pheromone.refresh ⟨1000, 5, PheromoneType.Resource⟩ 65535).strength ≤
      MAXIMUM_PHEROMONE_STRENGTH :=
  ⟨by decide, refresh_le_max ⟨1000, 5, PheromoneType.Resource⟩ 65535 (by decide)⟩

/-- Claim C7 (amended): `consume` on a resource with count 1 returns the new
count 0 (not a depletion signal); the depletion signal (`none`) is returned
exactly when the count is already 0, and the caller (`Ant::update`) clears
the tile entry exactly when it receives that signal. -/
theorem consume_depletion_spec :
    (∀ n : Nat, Resource.consume ⟨n⟩ =
      if n = 0 then ((⟨0⟩ : Resource), none) else ((⟨n - 1⟩ : Resource), some (n - 1))) ∧
    (∀ (a : Ant) (fm : Coordinates → Option Resource) (r : Resource),
      fm a.position = some r →
      ((a.consume_food_step fm).2 a.position = none ↔ (r.consume).2 = none)) := by
  constructor
  · intro n
    unfold Resource.consume
    dsimp only
    rcases Nat.eq_zero_or_pos n with h | h
    · subst h
      simp
    · rw [if_neg (show ¬ n = 0 by omega), if_pos (show 1 ≤ n from h)]
  · intro a fm r h
    unfold Ant.consume_food_step
    rw [h]
    dsimp only
    by_cases hc : (r.consume).2.isNone = true
    · rw [if_pos hc]
      rw [if_pos rfl]
      constructor
      · intro _
        exact Option.isNone_iff_eq_none.mp hc
      · intro _
        rfl
    · have hfalse : (r.consume).2.isNone = false := by
        cases hi : (r.consume).2.isNone
        · rfl
        · exact absurd hi hc
      rw [if_neg hc]
      rw [h]
      constructor
      · intro hn
        cases hn
      · intro hn
        rw [hn] at hfalse
        simp at hfalse

/-- Claim C7 witness: `consume` at count 1 yields the new count 0, and for an
ant standing on a zero-count resource the tile entry is cleared exactly when
`consume` signals depletion. -/
theorem consume_depletion_spec_witness :
    Resource.consume ⟨1⟩ = ((⟨0⟩ : Resource), some 0) ∧
    zeroTileFood zeroTileAnt.position = some ⟨0⟩ ∧
    ((zeroTileAnt.consume_food_step zeroTileFood).2 zeroTileAnt.position = none ↔
      (Resource.consume ⟨0⟩).2 = none) :=
  ⟨by simpa using consume_depletion_spec.1 1, by decide,
   consume_depletion_spec.2 zeroTileAnt zeroTileFood ⟨0⟩ (by decide)⟩

/-- The (wrapping) spawn-count computation is bounded by the requirement `a`
whenever the spawn rate `s` does not exceed the total requirement `t`. -/
theorem to_spawn_le_required (a s t : Nat) (hst : s ≤ t) :
    u16Mul a (u16Mul s 100) / t / 100 ≤ a := by
  rcases Nat.eq_zero_or_pos t with ht | ht
  · subst ht
    have hs0 : s = 0 := Nat.le_zero.mp hst
    subst hs0
    simp [u16Mul]
  · have h1 : u16Mul a (u16Mul s 100) ≤ a * (s * 100) := by
      calc u16Mul a (u16Mul s 100) ≤ a * u16Mul s 100 := Nat.mod_le _ _
        _ ≤ a * (s * 100) := Nat.mul_le_mul_left a (Nat.mod_le _ _)
    calc u16Mul a (u16Mul s 100) / t / 100
        ≤ a * (s * 100) / t / 100 :=
          Nat.div_le_div_right (Nat.div_le_div_right h1)
      _ ≤ a * (t * 100) / t / 100 :=
          Nat.div_le_div_right (Nat.div_le_div_right
            (Nat.mul_le_mul_left a (Nat.mul_le_mul_right 100 hst)))
      _ = a * 100 * t / t / 100 := by ring_nf
      _ = a * 100 / 100 := by rw [Nat.mul_div_cancel _ ht]
      _ = a := Nat.mul_div_cancel a (by norm_num)

/-- Claim C2 (amended): provided every kind's current count is within its
configured maximum AND the spawn rate does not exceed the total requirement,
`spawn_ants` never pushes a kind's population above its maximum (each kind
receives at most its own requirement).  Without the spawn-rate hypothesis the
claim fails: see the counterexample, where spawn rate 2 exceeds a total
requirement of 1 and the scout count overshoots its cap. -/
theorem spawn_ants_respects_cap (spawn_rate : Nat) (counts : AntType → Nat)
    (hc : ∀ u, counts u ≤ u.get_maximum_number_of_ants)
    (hs : spawn_rate ≤ total_required_ants counts) (t : AntType) :
    spawn_ants spawn_rate counts t ≤ t.get_maximum_number_of_ants := by
  unfold spawn_ants to_spawn
  split
  · have hb := to_spawn_le_required (required_for counts t) spawn_rate
      (total_required_ants counts) hs
    have hmax : t.get_maximum_number_of_ants ≤ 25 := by
      cases t <;> decide
    have hreq_eq : required_for counts t = t.get_maximum_number_of_ants - counts t := by
      unfold required_for u16Sub
      have := hc t
      omega
    have := hc t
    omega
  · have := hc t
    omega

/-- Claim C2 witness: at the near-full population with spawn rate 1 (equal to
the total requirement), the scout count stays within its maximum. -/
theorem spawn_ants_respects_cap_witness :
    (∀ u, nearFullCounts u ≤ u.get_maximum_number_of_ants) ∧
    1 ≤ total_required_ants nearFullCounts ∧
    spawn_ants 1 nearFullCounts AntType.Scout ≤ AntType.Scout.get_maximum_number_of_ants :=
  ⟨fun u => by cases u <;> decide, by decide,
   spawn_ants_respects_cap 1 nearFullCounts (fun u => by cases u <;> decide)
     (by decide) AntType.Scout⟩

/-- A successful `move_random` changes only the position and the cached
colony distance, never the journey flags. -/
theorem move_random_flags (a : Ant) (ab : Bool) (mv : List (Int × Int)) (b : Ant)
    (h : a.move_random ab mv = some b) :
    b.is_returning_to_colony = a.is_returning_to_colony ∧
    b.steps_on_current_journey = a.steps_on_current_journey ∧
    b.found_food = a.found_food := by
  unfold Ant.move_random at h
  rcases hgo : move_random_go a ab none mv with _ | pos
  · rw [hgo] at h
    cases h
  · rw [hgo] at h
    dsimp only at h
    cases h
    exact ⟨rfl, rfl, rfl⟩

/-- A successful `move_pheromones` changes only the position and the cached
colony distance, never the journey flags. -/
theorem move_pheromones_flags (a : Ant) (g : PheromoneGrid) (mv : List (Int × Int))
    (fb : MoveRand) (b : Ant) (h : a.move_pheromones g mv fb = some b) :
    b.is_returning_to_colony = a.is_returning_to_colony ∧
    b.steps_on_current_journey = a.steps_on_current_journey ∧
    b.found_food = a.found_food := by
  unfold Ant.move_pheromones at h
  rcases hs : strongestSearch a g mv 0 Coordinates.default with _ | p
  · rw [hs] at h
    cases h
  · rw [hs] at h
    obtain ⟨strongest, pos⟩ := p
    dsimp only at h
    split at h
    · exact move_random_flags a fb.allow_backwards fb.random_moves b h
    · cases h
      exact ⟨rfl, rfl, rfl⟩

/-- Claim C10: whenever `move_ant` is evaluated on an ant standing exactly on
its colony anchor, the resulting ant (for every grid content and every
randomness draw, whenever the move completes without panicking) has
`is_returning_to_colony = false`, `steps_on_current_journey = 0` and
`found_food = false` -- the reset runs first and no subsequent move touches
those fields. -/
theorem move_ant_resets_at_colony (a : Ant) (g : PheromoneGrid) (r : MoveChoice) (b : Ant)
    (hpos : a.position = a.colony_position) (h : a.move_ant g r = some b) :
    b.is_returning_to_colony = false ∧ b.steps_on_current_journey = 0 ∧
    b.found_food = false := by
  have hreset : a.reset_check =
      { a with
          steps_on_current_journey := 0,
          is_returning_to_colony := false,
          found_food := false } := by
    unfold Ant.reset_check
    rw [if_pos hpos]
  unfold Ant.move_ant at h
  rw [hreset] at h
  split at h
  · obtain ⟨h1, h2, h3⟩ := move_pheromones_flags _ g r.pheromone_moves r.fallback b h
    exact ⟨h1, h2, h3⟩
  · obtain ⟨h1, h2, h3⟩ := move_random_flags _ r.fallback.allow_backwards
      r.fallback.random_moves b h
    exact ⟨h1, h2, h3⟩

/-- Claim C10 witness: an ant with stale journey state sitting on its anchor
comes out of `move_ant` with the journey state reset (and one random step
taken). -/
theorem move_ant_resets_at_colony_witness :
    anchorAnt.position = anchorAnt.colony_position ∧
    Ant.move_ant anchorAnt emptyGrid anchorChoice = some anchorAntMoved ∧
    (anchorAntMoved.is_returning_to_colony = false ∧
      anchorAntMoved.steps_on_current_journey = 0 ∧
      anchorAntMoved.found_food = false) :=
  ⟨by decide, by decide,
   move_ant_resets_at_colony anchorAnt emptyGrid anchorChoice anchorAntMoved
     (by decide) (by decide)⟩

/-- Reading the cell a `gridSet` just wrote. -/
theorem gridSet_same (g : PheromoneGrid) (pos : Coordinates) (k : PheromoneType)
    (v : Option Pheromone) : gridSet g pos k v pos k = v := by
  unfold gridSet
  rw [if_pos ⟨rfl, rfl⟩]

/-- Reading any other cell after a `gridSet`. -/
theorem gridSet_other (g : PheromoneGrid) (pos : Coordinates) (k : PheromoneType)
    (v : Option Pheromone) (c : Coordinates) (k2 : PheromoneType)
    (h : ¬(c = pos ∧ k2 = k)) : gridSet g pos k v c k2 = g c k2 := by
  unfold gridSet
  rw [if_neg h]

/-- `update_pheromone` preserves the grid/index invariant: refreshing keeps
both sides untouched apart from the cell's value, creating sets the cell and
appends the (previously absent) pair to the lookup list. -/
theorem update_pheromone_inv (s : PheromoneState) (pos : Coordinates) (k : PheromoneType)
    (h : PheromoneInv s) : PheromoneInv (update_pheromone s pos k) := by
  obtain ⟨hm, hd⟩ := h
  unfold update_pheromone
  cases hcell : s.pheromones pos k with
  | some p =>
    refine ⟨?_, hd⟩
    intro c k2
    dsimp only
    by_cases hck : c = pos ∧ k2 = k
    · obtain ⟨rfl, rfl⟩ := hck
      rw [gridSet_same]
      simp only [Option.isSome_some, true_iff]
      exact (hm c k2).mp (by rw [hcell]; rfl)
    · rw [gridSet_other _ _ _ _ _ _ hck]
      exact hm c k2
  | none =>
    have hnotin : (pos, k) ∉ s.pheromone_lookup := by
      intro hmem
      have := (hm pos k).mpr hmem
      rw [hcell] at this
      cases this
    constructor
    · intro c k2
      dsimp only
      by_cases hck : c = pos ∧ k2 = k
      · obtain ⟨rfl, rfl⟩ := hck
        rw [gridSet_same]
        simp [List.mem_append]
      · rw [gridSet_other _ _ _ _ _ _ hck]
        rw [hm c k2]
        simp only [List.mem_append, List.mem_singleton]
        constructor
        · exact Or.inl
        · rintro (hmem | hmem)
          · exact hmem
          · exfalso
            apply hck
            exact ⟨congrArg Prod.fst hmem, congrArg Prod.snd hmem⟩
    · dsimp only
      simp only [List.nodup_append, List.nodup_cons, List.nodup_nil, and_true,
        List.not_mem_nil, not_false_iff, List.disjoint_singleton]
      exact ⟨hd, trivial, hnotin⟩

/-- `sweepStep` touches the grid only at its own entry. -/
theorem sweepStep_other (g : PheromoneGrid) (e e2 : Coordinates × PheromoneType)
    (hne : e2 ≠ e) : (sweepStep g e).1 e2.1 e2.2 = g e2.1 e2.2 := by
  have hcond : ¬(e2.1 = e.1 ∧ e2.2 = e.2) := by
    rintro ⟨h1, h2⟩
    exact hne (Prod.ext h1 h2)
  unfold sweepStep
  cases g e.1 e.2 with
  | some p =>
    dsimp only
    split
    · exact gridSet_other _ _ _ _ _ _ hcond
    · show gridSet (gridSet g e.1 e.2 (some (p.update).1)) e.1 e.2 none e2.1 e2.2 = g e2.1 e2.2
      rw [gridSet_other _ _ _ _ _ _ hcond, gridSet_other _ _ _ _ _ _ hcond]
  | none => rfl

/-- At its own entry, a `sweepStep` on a live cell leaves the cell filled
exactly when it keeps the entry. -/
theorem sweepStep_self (g : PheromoneGrid) (e : Coordinates × PheromoneType)
    (p : Pheromone) (hp : g e.1 e.2 = some p) :
    ((sweepStep g e).2 = true → ((sweepStep g e).1 e.1 e.2).isSome = true) ∧
    ((sweepStep g e).2 = false → (sweepStep g e).1 e.1 e.2 = none) := by
  unfold sweepStep
  rw [hp]
  dsimp only
  split
  · constructor
    · intro _
      show (gridSet g e.1 e.2 (some (p.update).1) e.1 e.2).isSome = true
      rw [gridSet_same]
      rfl
    · intro hcontra
      simp at hcontra
  · constructor
    · intro hcontra
      simp at hcontra
    · intro _
      show gridSet (gridSet g e.1 e.2 (some (p.update).1)) e.1 e.2 none e.1 e.2 = none
      rw [gridSet_same]

/-- The sweep's retained list is a sublist of the input list. -/
theorem sweepGo_sublist (l : List (Coordinates × PheromoneType)) (g : PheromoneGrid) :
    (sweepGo g l).2.Sublist l := by
  induction l generalizing g with
  | nil => exact List.Sublist.refl []
  | cons e rest ih =>
    simp only [sweepGo]
    split
    · exact (ih _).cons₂ e
    · exact (ih _).cons e

/-- The sweep leaves grid cells outside the processed list untouched. -/
theorem sweepGo_untouched (l : List (Coordinates × PheromoneType)) (g : PheromoneGrid)
    (e2 : Coordinates × PheromoneType) (h : e2 ∉ l) :
    (sweepGo g l).1 e2.1 e2.2 = g e2.1 e2.2 := by
  induction l generalizing g with
  | nil => rfl
  | cons e rest ih =>
    have hne : e2 ≠ e := by
      intro heq
      exact h (heq ▸ List.mem_cons_self e rest)
    have hrest : e2 ∉ rest := fun hm => h (List.mem_cons_of_mem e hm)
    simp only [sweepGo]
    rw [ih _ hrest, sweepStep_other g e e2 hne]

/-- Core sweep lemma: on a duplicate-free list whose entries all have live
grid cells, after the sweep a listed entry's cell is filled exactly when the
entry was retained. -/
theorem sweepGo_mem (l : List (Coordinates × PheromoneType)) (g : PheromoneGrid)
    (hnd : l.Nodup) (hall : ∀ e ∈ l, (g e.1 e.2).isSome = true) :
    ∀ e ∈ l, (((sweepGo g l).1 e.1 e.2).isSome = true ↔ e ∈ (sweepGo g l).2) := by
  induction l generalizing g with
  | nil =>
    intro e he
    cases he
  | cons e0 rest ih =>
    obtain ⟨hnotin, hndr⟩ := List.nodup_cons.mp hnd
    obtain ⟨p, hp⟩ : ∃ p, g e0.1 e0.2 = some p := by
      cases hcell : g e0.1 e0.2 with
      | none =>
        have := hall e0 (List.mem_cons_self e0 rest)
        rw [hcell] at this
        cases this
      | some p => exact ⟨p, rfl⟩
    have hall2 : ∀ e ∈ rest, ((sweepStep g e0).1 e.1 e.2).isSome = true := by
      intro e he
      have hne : e ≠ e0 := by
        intro heq
        exact hnotin (heq ▸ he)
      rw [sweepStep_other g e0 e hne]
      exact hall e (List.mem_cons_of_mem e0 he)
    have ihr := ih (sweepStep g e0).1 hndr hall2
    intro e he
    simp only [sweepGo]
    rcases List.mem_cons.mp he with rfl | her
    · rw [sweepGo_untouched rest (sweepStep g e).1 e hnotin]
      obtain ⟨hkeep, hdrop⟩ := sweepStep_self g e p hp
      cases hb : (sweepStep g e).2 with
      | true =>
        rw [if_pos rfl]
        simp only [hkeep hb, true_iff]
        exact List.mem_cons_self e _
      | false =>
        rw [if_neg (by simp)]
        rw [hdrop hb]
        simp only [Option.isSome_none, Bool.false_eq_true, false_iff]
        intro hmem
        exact hnotin ((sweepGo_sublist rest (sweepStep g e).1).subset hmem)
    · have hne : e ≠ e0 := by
        intro heq
        exact hnotin (heq ▸ her)
      rw [ihr e her]
      split
      · simp only [List.mem_cons]
        constructor
        · exact Or.inr
        · rintro (heq | hmem)
          · exact absurd heq hne
          · exact hmem
      · exact Iff.rfl

/-- The decay sweep of `World::update` preserves the grid/index invariant. -/
theorem world_decay_phase_inv (s : PheromoneState) (h : PheromoneInv s) :
    PheromoneInv (world_decay_phase s) := by
  obtain ⟨hm, hd⟩ := h
  have hall : ∀ e ∈ s.pheromone_lookup, (s.pheromones e.1 e.2).isSome = true := by
    intro e he
    exact (hm e.1 e.2).mpr (by rwa [Prod.mk.eta])
  constructor
  · intro c k
    unfold world_decay_phase
    dsimp only
    by_cases hin : (c, k) ∈ s.pheromone_lookup
    · exact sweepGo_mem s.pheromone_lookup s.pheromones hd hall (c, k) hin
    · rw [sweepGo_untouched s.pheromone_lookup s.pheromones (c, k) hin]
      constructor
      · intro hsome
        exact absurd ((hm c k).mp hsome) hin
      · intro hmem
        exact absurd ((sweepGo_sublist s.pheromone_lookup s.pheromones).subset hmem) hin
  · exact (sweepGo_sublist s.pheromone_lookup s.pheromones).nodup hd

/-- One full `World::update` tick (any lay sequence followed by the decay
sweep) preserves the grid/index invariant. -/
theorem world_tick_inv (lays : List (Coordinates × PheromoneType)) (s : PheromoneState)
    (h : PheromoneInv s) : PheromoneInv (world_tick lays s) := by
  unfold world_tick
  apply world_decay_phase_inv
  induction lays generalizing s with
  | nil => exact h
  | cons e rest ih => exact ih _ (update_pheromone_inv s e.1 e.2 h)

/-- Every reachable pheromone state satisfies the invariant. -/
theorem reachable_pheromone_inv (s : PheromoneState) (h : ReachablePheromoneState s) :
    PheromoneInv s := by
  induction h with
  | init =>
    constructor
    · intro c k
      simp [initialPheromoneState]
    · exact List.nodup_nil
  | step lays hs ih => exact world_tick_inv lays _ ih

/-- Claim C1: in every reachable `World` pheromone state (any number of
ticks from a freshly constructed world, each tick laying/refreshing
pheromones at arbitrary tiles and kinds before the decay sweep), a tile's
grid cell for a kind is `some` exactly when that coordinates+kind pair is in
`pheromone_lookup`; in particular a tile with no pheromone of a kind has a
`none` cell and no index entry. -/
theorem pheromone_grid_lookup_consistent (s : PheromoneState)
    (h : ReachablePheromoneState s) (c : Coordinates) (k : PheromoneType) :
    (s.pheromones c k).isSome = true ↔ (c, k) ∈ s.pheromone_lookup :=
  (reachable_pheromone_inv s h).1 c k

/-- Claim C1 witness: the state after one tick that lays one Exploration
pheromone at `(1, 1)` is reachable, and its grid cell and index entry for
that tile agree. -/
theorem pheromone_grid_lookup_consistent_witness :
    ((world_tick [(⟨1, 1⟩, PheromoneType.Exploration)] initialPheromoneState).pheromones
        ⟨1, 1⟩ PheromoneType.Exploration).isSome = true ↔
      ((⟨1, 1⟩ : Coordinates), PheromoneType.Exploration) ∈
        (world_tick [(⟨1, 1⟩, PheromoneType.Exploration)]
            initialPheromoneState).pheromone_lookup :=
  pheromone_grid_lookup_consistent _
    (ReachablePheromoneState.step _ ReachablePheromoneState.init) ⟨1, 1⟩
    PheromoneType.Exploration

end AntSim
